import Mathlib

/-
Shallow embedding of `src/aio_run_in_process/_child.py` (the worker/child
side of aio-run-in-process).  The child drives a lifecycle state machine,
reporting each state transition over a byte channel to the parent, runs the
task under an asyncio loop while racing it against a soft interrupt
(SIGINT, injected as KeyboardInterrupt) and a hard terminate (SIGTERM,
raised as SystemExit), and finally writes a FINISHED message and exits.

The channel is modelled at message granularity: each `update_state` /
`update_state_initialized` / `update_state_finished` call becomes one
`Msg`.  The pickling codec (`pickle_value` / `receive_pickled_value`,
defined in `_utils.py`, which is outside the given sources) is opaque per
the spec; a FINISHED payload is therefore represented by the `Outcome` it
decodes to, and fallibility of the codec is modelled by boolean-valued
parameters saying whether a given pickling call succeeds.
-/

namespace AioRunInProcess

/-- Lifecycle states of the worker, in protocol order.  Modelled from the
spec: the `State` enumeration lives in `state.py`, which is outside the
given sources; the spec lists the members INITIALIZING, INITIALIZED,
WAIT_EXEC_DATA, BOOTING, STARTED, EXECUTING, STOPPING, FINISHED. -/
inductive State where
  | INITIALIZING
  | INITIALIZED
  | WAIT_EXEC_DATA
  | BOOTING
  | STARTED
  | EXECUTING
  | STOPPING
  | FINISHED
  deriving DecidableEq, Repr

/-- Python exceptions relevant to `_child.py`'s exception dispatch:
`KeyboardInterrupt` (the injected soft-interrupt condition), `SystemExit`
carrying the numeric terminate-signal value, an unbound-local error (what
the interpreter raises when `finished_payload` is referenced without having
been assigned), the defensive `Exception("Code path should not be
reachable")`, and all other exceptions, distinguished by an opaque tag.
`incompleteSchedule` is a modelling artifact marking a race schedule too
short to resolve the run; it corresponds to no real exception and never
occurs under the well-formedness hypotheses of the theorems below. -/
inductive PyExc where
  | keyboardInterrupt
  | systemExit (code : Nat)
  | other (tag : Nat)
  | unboundLocal
  | unreachable
  | incompleteSchedule
  deriving DecidableEq, Repr

/-- Modelled from the spec: `RemoteException` is defined in `_utils.py`,
outside the given sources.  Per the spec it captures the original error at
the worker's exit point so the supervisor can reconstruct it; here it wraps
the captured exception. -/
structure RemoteException where
  exc : PyExc
  deriving DecidableEq, Repr

/-- The decoded meaning of a FINISHED payload: either the task's value or a
wrapped remote failure (the spec's `Outcome` tagged union). -/
inductive Outcome (α : Type) where
  | success (v : α)
  | failure (e : RemoteException)
  deriving DecidableEq, Repr

/-- One message written to the parent over the channel: `state` is an
`update_state` call (bare 1-byte tag), `initialized` is
`update_state_initialized` (tag plus the worker pid), `finished` is
`update_state_finished` (tag plus the encoded outcome payload). -/
inductive Msg (α : Type) where
  | state (s : State)
  | initialized (pid : Nat)
  | finished (payload : Outcome α)
  deriving DecidableEq, Repr

/-- The state tag a message carries on the wire. -/
def Msg.tag {α : Type} : Msg α → State
  | .state s => s
  | .initialized _ => .INITIALIZED
  | .finished _ => .FINISHED

/-- Whether a message is a FINISHED message. -/
def Msg.isFinished {α : Type} : Msg α → Bool
  | .finished _ => true
  | _ => false

/-- Number of FINISHED messages in a channel transcript. -/
def countFinished {α : Type} (msgs : List (Msg α)) : Nat :=
  (msgs.filter (fun m => m.isFinished)).length

/-- How the coroutine reacts to one `coro.throw(KeyboardInterrupt)` in
`_handle_coro`: it can swallow the exception and keep running (`throw`
returns normally), finish by returning a value (surfacing as
`StopIteration` whose `value` is taken as the result), or let some
exception propagate out of the `throw` call. -/
inductive ThrowReaction (α : Type) where
  | resumes
  | returnsValue (v : α)
  | raises (e : PyExc)
  deriving DecidableEq, Repr

/-- Result of `_handle_coro`: the returned value, a propagated exception,
or `stuck` when the supplied race schedule ends before the run resolves
(a modelling artifact; the real loop always resolves). -/
inductive HCResult (α : Type) where
  | ret (v : α)
  | raised (e : PyExc)
  | stuck
  deriving DecidableEq, Repr

/-- Taking the shielded task's own completion as the result of
`_handle_coro`: `return await coro_task` yields its value or re-raises its
exception. -/
def settle {α : Type} : Except PyExc α → HCResult α
  | .ok v => .ret v
  | .error e => .raised e

/-- The race loop of `_handle_coro` in `_child.py`.  `final` is how the
shielded coroutine task completes when it runs to completion on its own;
`reactions` is how the coroutine responds to successive injected
`KeyboardInterrupt`s; `sched` gives, for each iteration of the
`while True` loop, the observation at the `asyncio.wait` race point as the
pair (`coro_task.done()`, `got_SIGINT.is_set()`).  As in the code, a done
task is checked first and taken directly; otherwise a set SIGINT flag is
cleared and a `KeyboardInterrupt` is thrown into the coroutine, whose
reaction either continues the loop, returns a value, or propagates an
exception; a race that fires with neither ready hits the defensive
`raise Exception("Code path should not be reachable")`. -/
def handle_coro {α : Type} (final : Except PyExc α) :
    List (ThrowReaction α) → List (Bool × Bool) → HCResult α
  | _, [] => .stuck
  | reactions, (coroDone, sigintSet) :: rest =>
    if coroDone then
      settle final
    else if sigintSet then
      match reactions with
      | [] => .stuck
      | .resumes :: rs => handle_coro final rs rest
      | .returnsValue v :: _ => .ret v
      | .raises e :: _ => .raised e
    else
      .raised .unreachable

/-- `_do_async_fn` in `_child.py`: emits STARTED, installs the SIGTERM
handler, emits EXECUTING, installs the SIGINT handler, starts
`_handle_coro` as `async_fn_task`, and races it against the
`system_exit_signum` future.  `termDone` and `taskDone` are the two
`done()` observations at that outer race; as in the code the `SystemExit`
case is prioritized: if the signal future is done, the task is cleaned up
and `SystemExit(signum)` is raised even when the task is also done;
otherwise a done task yields its result or exception; both false hits the
defensive `raise Exception("unreachable")`.  Returns the messages emitted
together with the overall result of the coroutine `_do_async_fn`. -/
def do_async_fn {α : Type} (final : Except PyExc α)
    (reactions : List (ThrowReaction α)) (sched : List (Bool × Bool))
    (termDone : Bool) (termSignum : Nat) (taskDone : Bool) :
    List (Msg α) × Except PyExc α :=
  ([Msg.state .STARTED, Msg.state .EXECUTING],
    if termDone then
      Except.error (.systemExit termSignum)
    else if taskDone then
      match handle_coro final reactions sched with
      | .ret v => Except.ok v
      | .raised e => Except.error e
      | .stuck => Except.error .incompleteSchedule
    else
      Except.error .unreachable)

/-- Process exit status: `sys.exit(code)` with a numeric code, or a crash
of the interpreter on an exception that escapes `_run_process` entirely. -/
inductive ExitStatus where
  | exitCode (code : Nat)
  | crashed (e : PyExc)
  deriving DecidableEq, Repr

/-- A whole worker run: the channel transcript and the exit status. -/
structure RunResult (α : Type) where
  msgs : List (Msg α)
  exit : ExitStatus
  deriving DecidableEq, Repr

/-- The `except` ladder of `_run_process`: `except KeyboardInterrupt`
gives code 2, `except SystemExit as err` gives `err.args[0]` (the numeric
signal value on the terminate path), `except BaseException` gives 1. -/
def exit_code_of : PyExc → Nat
  | .keyboardInterrupt => 2
  | .systemExit n => n
  | _ => 1

/-- `_run_process` in `_child.py`.  It writes INITIALIZED (with the pid)
and WAIT_EXEC_DATA, then decodes the task descriptor with
`receive_pickled_value` — a step that sits OUTSIDE the try statement, so a
decode failure (`decoded = .error e`) escapes uncaught and the process
crashes with no further messages.  On successful decode it writes BOOTING
and runs `_do_async_fn` to completion.  A `BaseException` from the body is
wrapped as `RemoteException` and pickled into `finished_payload` before
being re-raised; the inner `finally` writes STOPPING unconditionally; the
outer except ladder picks the exit code; on normal return the `else`
clause pickles the result.  The outer `finally` writes FINISHED with
`finished_payload` and calls `sys.exit(code)` — when the relevant
`pickle_value` call failed, `finished_payload` was never bound, so the
reference to it in the `finally` raises `UnboundLocalError` and the
process crashes without a FINISHED message.  `pickleValOk v` says whether
`pickle_value(result)` succeeds on value `v`; `pickleExcOk e` says whether
`pickle_value(remote_exc)` succeeds for a `RemoteException` wrapping
`e`. -/
def run_process {α : Type} (pid : Nat) (decoded : Except PyExc Unit)
    (final : Except PyExc α) (reactions : List (ThrowReaction α))
    (sched : List (Bool × Bool)) (termDone : Bool) (termSignum : Nat)
    (taskDone : Bool) (pickleValOk : α → Bool)
    (pickleExcOk : PyExc → Bool) : RunResult α :=
  match decoded with
  | .error e =>
    ⟨[Msg.initialized pid, Msg.state .WAIT_EXEC_DATA], .crashed e⟩
  | .ok _ =>
    let body := do_async_fn final reactions sched termDone termSignum taskDone
    let msgs := Msg.initialized pid :: Msg.state .WAIT_EXEC_DATA ::
      Msg.state .BOOTING :: body.1
    match body.2 with
    | .ok v =>
      if pickleValOk v then
        ⟨msgs ++ [Msg.state .STOPPING, Msg.finished (.success v)],
          .exitCode 0⟩
      else
        ⟨msgs ++ [Msg.state .STOPPING], .crashed .unboundLocal⟩
    | .error e =>
      if pickleExcOk e then
        ⟨msgs ++ [Msg.state .STOPPING, Msg.finished (.failure ⟨e⟩)],
          .exitCode (exit_code_of e)⟩
      else
        ⟨msgs ++ [Msg.state .STOPPING], .crashed .unboundLocal⟩

end AioRunInProcess

namespace AioRunInProcess

/-- Unfolding lemma: a race tick with the task done takes its result. -/
theorem handle_coro_done {α : Type} (final : Except PyExc α)
    (reactions : List (ThrowReaction α)) (sigintSet : Bool)
    (rest : List (Bool × Bool)) :
    handle_coro final reactions ((true, sigintSet) :: rest) = settle final := by
  cases reactions with
  | nil => rfl
  | cons r rs => cases r <;> rfl

/-- Unfolding lemma: a SIGINT-only tick against a resuming coroutine
clears the flag, injects the interrupt and loops. -/
theorem handle_coro_resume {α : Type} (final : Except PyExc α)
    (rs : List (ThrowReaction α)) (rest : List (Bool × Bool)) :
    handle_coro final (.resumes :: rs) ((false, true) :: rest) =
      handle_coro final rs rest :=
  rfl

/-- Unfolding lemma: a SIGINT-only tick against a coroutine that returns a
value on interrupt captures that value as the result. -/
theorem handle_coro_returns {α : Type} (final : Except PyExc α) (v : α)
    (rs : List (ThrowReaction α)) (rest : List (Bool × Bool)) :
    handle_coro final (.returnsValue v :: rs) ((false, true) :: rest) =
      .ret v :=
  rfl

/-- Claim C9: in the interrupt race loop of `_handle_coro`, a completed
task always wins over a simultaneously set interrupt flag: whenever the
race resolves with the shielded task already done, its result or failure
is taken directly via `settle`, independently of the remaining reactions —
no interrupt condition is injected even if the SIGINT flag is set in the
same tick. -/
theorem C9_task_wins_over_sigint {α : Type} (final : Except PyExc α)
    (reactions : List (ThrowReaction α)) (sigintSet : Bool)
    (rest : List (Bool × Bool)) :
    handle_coro final reactions ((true, sigintSet) :: rest) = settle final :=
  handle_coro_done final reactions sigintSet rest

/-- Claim C6: delivering the soft interrupt `k` times to a task that
swallows each injected `KeyboardInterrupt` and resumes is a no-op for the
race loop: `k` resume reactions consumed by `k` SIGINT race ticks leave
`handle_coro` exactly where it started, and in particular once the task
then completes the outcome is the task's own normal result. -/
theorem C6_resumes_no_effect {α : Type} (k : Nat) (final : Except PyExc α)
    (rs : List (ThrowReaction α)) (sched : List (Bool × Bool))
    (sigintSet : Bool) (rest : List (Bool × Bool)) :
    handle_coro final (List.replicate k .resumes ++ rs)
        (List.replicate k (false, true) ++ sched) =
      handle_coro final rs sched ∧
    handle_coro final (List.replicate k .resumes)
        (List.replicate k (false, true) ++ (true, sigintSet) :: rest) =
      settle final := by
  constructor
  · induction k with
    | zero => simp
    | succ n ih => simpa [List.replicate_succ, handle_coro_resume] using ih
  · induction k with
    | zero => simpa using handle_coro_done final [] sigintSet rest
    | succ n ih => simpa [List.replicate_succ, handle_coro_resume] using ih

end AioRunInProcess

namespace AioRunInProcess

/-- Claim C3: for a task that returns `v` without error and receives no
signals (the body race resolves with the task done and no terminate), the
worker writes messages whose state tags are exactly INITIALIZED,
WAIT_EXEC_DATA, BOOTING, STARTED, EXECUTING, STOPPING, FINISHED, and the
FINISHED payload decodes to `Success v`; pickling the result is assumed to
succeed, the codec being opaque. -/
theorem C3_success_lifecycle {α : Type} (pid termSignum : Nat) (v : α)
    (reactions : List (ThrowReaction α)) (rest : List (Bool × Bool))
    (pickleValOk : α → Bool) (pickleExcOk : PyExc → Bool)
    (hp : pickleValOk v = true) :
    (run_process pid (.ok ()) (.ok v) reactions ((true, false) :: rest)
        false termSignum true pickleValOk pickleExcOk).msgs.map Msg.tag =
      [State.INITIALIZED, State.WAIT_EXEC_DATA, State.BOOTING, State.STARTED,
        State.EXECUTING, State.STOPPING, State.FINISHED] ∧
    (run_process pid (.ok ()) (.ok v) reactions ((true, false) :: rest)
        false termSignum true pickleValOk pickleExcOk).msgs.getLast? =
      some (Msg.finished (Outcome.success v)) := by
  have hc := handle_coro_done (Except.ok v) reactions false rest
  constructor <;> simp [run_process, do_async_fn, hc, settle, hp, Msg.tag]

/-- Witness for C3: a concrete successful run returning 42. -/
theorem C3_success_lifecycle_witness :
    (run_process (α := Nat) 7 (.ok ()) (.ok 42) [] [(true, false)]
        false 15 true (fun _ => true) (fun _ => true)).msgs.map Msg.tag =
      [State.INITIALIZED, State.WAIT_EXEC_DATA, State.BOOTING, State.STARTED,
        State.EXECUTING, State.STOPPING, State.FINISHED] ∧
    (run_process (α := Nat) 7 (.ok ()) (.ok 42) [] [(true, false)]
        false 15 true (fun _ => true) (fun _ => true)).msgs.getLast? =
      some (Msg.finished (Outcome.success 42)) :=
  C3_success_lifecycle 7 15 42 [] [] (fun _ => true) (fun _ => true) rfl

/-- Claim C5: a task that, upon the injected `KeyboardInterrupt`, returns
a value `v` (surfacing as `StopIteration`) yields `Success v`: the race
loop captures the value, the worker writes FINISHED with `Success v` and
exits with status 0 — the value is never converted into a failure. -/
theorem C5_interrupt_return_success {α : Type} (pid termSignum : Nat)
    (v : α) (final : Except PyExc α) (rs : List (ThrowReaction α))
    (rest : List (Bool × Bool)) (pickleValOk : α → Bool)
    (pickleExcOk : PyExc → Bool) (hp : pickleValOk v = true) :
    handle_coro final (.returnsValue v :: rs) ((false, true) :: rest) =
      .ret v ∧
    (run_process pid (.ok ()) final (.returnsValue v :: rs)
        ((false, true) :: rest) false termSignum true pickleValOk
        pickleExcOk).msgs.getLast? =
      some (Msg.finished (Outcome.success v)) ∧
    (run_process pid (.ok ()) final (.returnsValue v :: rs)
        ((false, true) :: rest) false termSignum true pickleValOk
        pickleExcOk).exit = .exitCode 0 := by
  have hc := handle_coro_returns final v rs rest
  refine ⟨hc, ?_, ?_⟩ <;> simp [run_process, do_async_fn, hc, hp]

/-- Witness for C5: a concrete run whose task returns 9 on interrupt. -/
theorem C5_interrupt_return_success_witness :
    handle_coro (α := Nat) (.ok 0) (.returnsValue 9 :: [])
        ((false, true) :: []) = .ret 9 ∧
    (run_process (α := Nat) 7 (.ok ()) (.ok 0) (.returnsValue 9 :: [])
        ((false, true) :: []) false 15 true (fun _ => true)
        (fun _ => true)).msgs.getLast? =
      some (Msg.finished (Outcome.success 9)) ∧
    (run_process (α := Nat) 7 (.ok ()) (.ok 0) (.returnsValue 9 :: [])
        ((false, true) :: []) false 15 true (fun _ => true)
        (fun _ => true)).exit = .exitCode 0 :=
  C5_interrupt_return_success 7 15 9 (.ok 0) [] [] (fun _ => true)
    (fun _ => true) rfl

end AioRunInProcess

namespace AioRunInProcess

/-- Claim C4: when the outer race in `_do_async_fn` resolves with both the
shielded task and the terminate future ready in the same tick, the
`SystemExit` branch is prioritized: the body's result is
`SystemExit(signum)` even though the task completed with a value, the
process exits with the signal's numeric value, and the completed value is
never returned — no FINISHED message ever carries `Success`. -/
theorem C4_terminate_priority {α : Type} (pid n : Nat) (v : α)
    (reactions : List (ThrowReaction α)) (sched : List (Bool × Bool))
    (pickleValOk : α → Bool) (pickleExcOk : PyExc → Bool)
    (hp : pickleExcOk (.systemExit n) = true) :
    (do_async_fn (Except.ok v) reactions sched true n true).2 =
      Except.error (.systemExit n) ∧
    (run_process pid (.ok ()) (Except.ok v) reactions sched true n true
        pickleValOk pickleExcOk).exit = .exitCode n ∧
    ∀ w : α, Msg.finished (Outcome.success w) ∉
      (run_process pid (.ok ()) (Except.ok v) reactions sched true n true
        pickleValOk pickleExcOk).msgs := by
  refine ⟨rfl, ?_, ?_⟩ <;>
    simp [run_process, do_async_fn, hp, exit_code_of]

/-- Witness for C4: a concrete both-ready run terminated by signal 15. -/
theorem C4_terminate_priority_witness :
    (do_async_fn (α := Nat) (Except.ok 5) [] [(true, false)] true 15
        true).2 = Except.error (.systemExit 15) ∧
    (run_process (α := Nat) 7 (.ok ()) (Except.ok 5) [] [(true, false)]
        true 15 true (fun _ => true) (fun _ => true)).exit = .exitCode 15 ∧
    ∀ w : Nat, Msg.finished (Outcome.success w) ∉
      (run_process (α := Nat) 7 (.ok ()) (Except.ok 5) [] [(true, false)]
        true 15 true (fun _ => true) (fun _ => true)).msgs :=
  C4_terminate_priority 7 15 5 [] [(true, false)] (fun _ => true)
    (fun _ => true) rfl

/-- Counterexample to claim C1: in a run where the hard-terminate signal
wins the race during EXECUTING (signal 15), the process exit status is
indeed the signal's numeric value, but a FINISHED payload IS written to
the channel — the `except BaseException` block of `_run_process` catches
the `SystemExit`, pickles it as a `RemoteException` into
`finished_payload`, and the outer `finally` writes FINISHED with it, so
the forced exit does not bypass the outcome channel. -/
theorem C1_counterexample :
    (run_process (α := Nat) 7 (.ok ()) (.ok 5) [] [(true, false)] true 15
        false (fun _ => true) (fun _ => true)).exit = .exitCode 15 ∧
    Msg.finished (Outcome.failure ⟨.systemExit 15⟩) ∈
      (run_process (α := Nat) 7 (.ok ()) (.ok 5) [] [(true, false)] true 15
        false (fun _ => true) (fun _ => true)).msgs := by
  decide

/-- Claim C1 as amended: when the hard-terminate signal wins the outer
race, the worker exits with the signal's numeric value as its status, and
(the pickling of the wrapped `SystemExit` succeeding) it also writes
STOPPING followed by a FINISHED message whose payload is
`Failure(RemoteException(SystemExit(signum)))` — the forced exit goes
through the outcome channel rather than bypassing it. -/
theorem C1_forced_exit_writes_finished {α : Type} (pid n : Nat)
    (final : Except PyExc α) (reactions : List (ThrowReaction α))
    (sched : List (Bool × Bool)) (taskDone : Bool) (pickleValOk : α → Bool)
    (pickleExcOk : PyExc → Bool) (hp : pickleExcOk (.systemExit n) = true) :
    run_process pid (.ok ()) final reactions sched true n taskDone
        pickleValOk pickleExcOk =
      ⟨[Msg.initialized pid, Msg.state .WAIT_EXEC_DATA, Msg.state .BOOTING,
        Msg.state .STARTED, Msg.state .EXECUTING, Msg.state .STOPPING,
        Msg.finished (.failure ⟨.systemExit n⟩)], .exitCode n⟩ := by
  simp [run_process, do_async_fn, hp, exit_code_of]

/-- Witness for the amended C1 at a concrete terminated run. -/
theorem C1_forced_exit_witness :
    run_process (α := Nat) 7 (.ok ()) (.ok 5) [] [] true 15 false
        (fun _ => true) (fun _ => true) =
      ⟨[Msg.initialized 7, Msg.state .WAIT_EXEC_DATA, Msg.state .BOOTING,
        Msg.state .STARTED, Msg.state .EXECUTING, Msg.state .STOPPING,
        Msg.finished (.failure ⟨.systemExit 15⟩)], .exitCode 15⟩ :=
  C1_forced_exit_writes_finished 7 15 (.ok 5) [] [] false (fun _ => true)
    (fun _ => true) rfl

end AioRunInProcess

namespace AioRunInProcess

/-- Counterexample to claim C2: in a run where decoding the task
descriptor fails (`receive_pickled_value` raises), the failure is NOT
caught — the call sits outside the try statement of `_run_process` — so
the worker crashes right after INITIALIZED and WAIT_EXEC_DATA: no
STOPPING and no FINISHED message is ever written. -/
theorem C2_counterexample :
    (run_process (α := Nat) 7 (.error (.other 3)) (.ok 5) [] [(true, false)]
        false 15 true (fun _ => true) (fun _ => true)) =
      ⟨[Msg.initialized 7, Msg.state .WAIT_EXEC_DATA],
        .crashed (.other 3)⟩ ∧
    Msg.state State.STOPPING ∉
      (run_process (α := Nat) 7 (.error (.other 3)) (.ok 5) []
        [(true, false)] false 15 true (fun _ => true)
        (fun _ => true)).msgs ∧
    countFinished
      (run_process (α := Nat) 7 (.error (.other 3)) (.ok 5) []
        [(true, false)] false 15 true (fun _ => true)
        (fun _ => true)).msgs = 0 := by
  decide

/-- Claim C2 as amended: a failure while decoding the task descriptor
escapes uncaught — the worker crashes after INITIALIZED and WAIT_EXEC_DATA
with neither STOPPING nor FINISHED written — whereas a failure raised
while running the task (after BOOTING) is caught, wrapped into a
`RemoteException`, and the worker still emits STOPPING followed by
FINISHED carrying `Failure(RemoteException(e))` (the pickling of the
wrapped failure succeeding). -/
theorem C2_failure_paths {α : Type} (pid termSignum : Nat) (e e2 : PyExc)
    (final : Except PyExc α) (reactions rs : List (ThrowReaction α))
    (sched : List (Bool × Bool)) (sigintSet : Bool)
    (rest : List (Bool × Bool)) (pickleValOk : α → Bool)
    (pickleExcOk : PyExc → Bool) (hp : pickleExcOk e2 = true) :
    run_process pid (Except.error e) final reactions sched false termSignum
        true pickleValOk pickleExcOk =
      ⟨[Msg.initialized pid, Msg.state .WAIT_EXEC_DATA], .crashed e⟩ ∧
    run_process pid (.ok ()) (Except.error e2) rs
        ((true, sigintSet) :: rest) false termSignum true pickleValOk
        pickleExcOk =
      ⟨[Msg.initialized pid, Msg.state .WAIT_EXEC_DATA, Msg.state .BOOTING,
        Msg.state .STARTED, Msg.state .EXECUTING, Msg.state .STOPPING,
        Msg.finished (.failure ⟨e2⟩)], .exitCode (exit_code_of e2)⟩ := by
  have hc := handle_coro_done (Except.error e2) rs sigintSet rest
  exact ⟨rfl, by simp [run_process, do_async_fn, hc, settle, hp]⟩

/-- Witness for the amended C2: a concrete decode failure and a concrete
task failure. -/
theorem C2_failure_paths_witness :
    run_process (α := Nat) 7 (Except.error (.other 3)) (.ok 5) [] []
        false 15 true (fun _ => true) (fun _ => true) =
      ⟨[Msg.initialized 7, Msg.state .WAIT_EXEC_DATA],
        .crashed (.other 3)⟩ ∧
    run_process (α := Nat) 7 (.ok ()) (Except.error (.other 4)) []
        ((true, false) :: []) false 15 true (fun _ => true)
        (fun _ => true) =
      ⟨[Msg.initialized 7, Msg.state .WAIT_EXEC_DATA, Msg.state .BOOTING,
        Msg.state .STARTED, Msg.state .EXECUTING, Msg.state .STOPPING,
        Msg.finished (.failure ⟨.other 4⟩)],
        .exitCode (exit_code_of (.other 4))⟩ :=
  C2_failure_paths 7 15 (.other 3) (.other 4) (.ok 5) [] [] [] false []
    (fun _ => true) (fun _ => true) rfl

/-- Claim C7: process exit status is 0 when the task returns a value, 1
when a failure other than an interrupt condition or forced exit
propagates, 2 when an unhandled `KeyboardInterrupt` propagates, and `n`
(the numeric signal value carried by `SystemExit`) on the hard-terminate
path; the opaque pickling codec is assumed to succeed. -/
theorem C7_exit_codes {α : Type} (pid n tag : Nat) (v : α)
    (pickleValOk : α → Bool) (pickleExcOk : PyExc → Bool)
    (hv : pickleValOk v = true) (he : ∀ e, pickleExcOk e = true) :
    (run_process pid (.ok ()) (.ok v) [] [(true, false)] false n true
        pickleValOk pickleExcOk).exit = .exitCode 0 ∧
    (run_process pid (.ok ()) (Except.error (.other tag)) [] [(true, false)]
        false n true pickleValOk pickleExcOk).exit = .exitCode 1 ∧
    (run_process pid (.ok ()) (.ok v) [.raises .keyboardInterrupt]
        [(false, true)] false n true pickleValOk pickleExcOk).exit =
      .exitCode 2 ∧
    (run_process pid (.ok ()) (.ok v) [] [(true, false)] true n false
        pickleValOk pickleExcOk).exit = .exitCode n := by
  refine ⟨?_, ?_, ?_, ?_⟩
  · have hc := handle_coro_done (α := α) (Except.ok v) [] false []
    simp [run_process, do_async_fn, hc, settle, hv]
  · have hc := handle_coro_done (α := α) (Except.error (.other tag)) []
      false []
    simp [run_process, do_async_fn, hc, settle, he, exit_code_of]
  · have hc : handle_coro (α := α) (.ok v) [.raises .keyboardInterrupt]
        [(false, true)] = .raised .keyboardInterrupt := rfl
    simp [run_process, do_async_fn, hc, he, exit_code_of]
  · simp [run_process, do_async_fn, he, exit_code_of]

/-- Witness for C7 at concrete runs with value 42, failure tag 8 and
signal 15. -/
theorem C7_exit_codes_witness :
    (run_process (α := Nat) 7 (.ok ()) (.ok 42) [] [(true, false)] false 15
        true (fun _ => true) (fun _ => true)).exit = .exitCode 0 ∧
    (run_process (α := Nat) 7 (.ok ()) (Except.error (.other 8)) []
        [(true, false)] false 15 true (fun _ => true)
        (fun _ => true)).exit = .exitCode 1 ∧
    (run_process (α := Nat) 7 (.ok ()) (.ok 42)
        [.raises .keyboardInterrupt] [(false, true)] false 15 true
        (fun _ => true) (fun _ => true)).exit = .exitCode 2 ∧
    (run_process (α := Nat) 7 (.ok ()) (.ok 42) [] [(true, false)] true 15
        false (fun _ => true) (fun _ => true)).exit = .exitCode 15 :=
  C7_exit_codes 7 15 8 42 (fun _ => true) (fun _ => true) rfl
    (fun _ => rfl)

/-- Claim C10: when the task completes normally with value `v` but
`pickle_value(result)` raises, the worker has already written STOPPING
(the inner `finally`), `finished_payload` is never bound, so the reference
to it in the outer `finally` raises `UnboundLocalError` before
`update_state_finished` can write anything: no FINISHED message appears
and the process does not exit with status 0. -/
theorem C10_unpicklable_result {α : Type} (pid termSignum : Nat) (v : α)
    (reactions : List (ThrowReaction α)) (rest : List (Bool × Bool))
    (pickleValOk : α → Bool) (pickleExcOk : PyExc → Bool)
    (hp : pickleValOk v = false) :
    run_process pid (.ok ()) (.ok v) reactions ((true, false) :: rest)
        false termSignum true pickleValOk pickleExcOk =
      ⟨[Msg.initialized pid, Msg.state .WAIT_EXEC_DATA, Msg.state .BOOTING,
        Msg.state .STARTED, Msg.state .EXECUTING, Msg.state .STOPPING],
        .crashed .unboundLocal⟩ ∧
    countFinished
      (run_process pid (.ok ()) (.ok v) reactions ((true, false) :: rest)
        false termSignum true pickleValOk pickleExcOk).msgs = 0 ∧
    (run_process pid (.ok ()) (.ok v) reactions ((true, false) :: rest)
        false termSignum true pickleValOk pickleExcOk).exit ≠
      .exitCode 0 := by
  have hc := handle_coro_done (Except.ok v) reactions false rest
  refine ⟨?_, ?_, ?_⟩ <;>
    simp [run_process, do_async_fn, hc, settle, hp, countFinished,
      Msg.isFinished]

/-- Witness for C10: a concrete run whose result 42 cannot be pickled. -/
theorem C10_unpicklable_result_witness :
    run_process (α := Nat) 7 (.ok ()) (.ok 42) [] ((true, false) :: [])
        false 15 true (fun _ => false) (fun _ => true) =
      ⟨[Msg.initialized 7, Msg.state .WAIT_EXEC_DATA, Msg.state .BOOTING,
        Msg.state .STARTED, Msg.state .EXECUTING, Msg.state .STOPPING],
        .crashed .unboundLocal⟩ ∧
    countFinished
      (run_process (α := Nat) 7 (.ok ()) (.ok 42) [] ((true, false) :: [])
        false 15 true (fun _ => false) (fun _ => true)).msgs = 0 ∧
    (run_process (α := Nat) 7 (.ok ()) (.ok 42) [] ((true, false) :: [])
        false 15 true (fun _ => false) (fun _ => true)).exit ≠
      .exitCode 0 :=
  C10_unpicklable_result 7 15 42 [] [] (fun _ => false) (fun _ => true)
    rfl

end AioRunInProcess

namespace AioRunInProcess

/-- The messages `_do_async_fn` itself writes are always exactly STARTED
followed by EXECUTING, whatever the races resolve to. -/
theorem do_async_fn_msgs {α : Type} (final : Except PyExc α)
    (reactions : List (ThrowReaction α)) (sched : List (Bool × Bool))
    (termDone : Bool) (termSignum : Nat) (taskDone : Bool) :
    (do_async_fn final reactions sched termDone termSignum taskDone).1 =
      [Msg.state .STARTED, Msg.state .EXECUTING] :=
  rfl

/-- Claim C8: on every exit path of the worker — success, failure,
unhandled interrupt, forced exit, and even the crash paths — at most one
FINISHED message is written per lifetime, and whenever a FINISHED message
is written it is the last message and a STOPPING message was written
before it. -/
theorem C8_stopping_before_finished {α : Type} (pid : Nat)
    (decoded : Except PyExc Unit) (final : Except PyExc α)
    (reactions : List (ThrowReaction α)) (sched : List (Bool × Bool))
    (termDone : Bool) (termSignum : Nat) (taskDone : Bool)
    (pickleValOk : α → Bool) (pickleExcOk : PyExc → Bool) :
    countFinished (run_process pid decoded final reactions sched termDone
        termSignum taskDone pickleValOk pickleExcOk).msgs ≤ 1 ∧
    ∀ p : Outcome α,
      Msg.finished p ∈ (run_process pid decoded final reactions sched
        termDone termSignum taskDone pickleValOk pickleExcOk).msgs →
      ∃ pre,
        (run_process pid decoded final reactions sched termDone termSignum
          taskDone pickleValOk pickleExcOk).msgs =
          pre ++ [Msg.finished p] ∧
        Msg.state State.STOPPING ∈ pre := by
  rcases decoded with e | u
  · refine ⟨by simp [run_process, countFinished, Msg.isFinished], ?_⟩
    intro p hp
    simp [run_process] at hp
  · rcases hE : (do_async_fn final reactions sched termDone termSignum
        taskDone).2 with e | v
    · cases hpe : pickleExcOk e
      · refine ⟨?_, ?_⟩
        · simp [run_process, do_async_fn_msgs, hE, hpe, countFinished,
            Msg.isFinished]
        · intro p hp
          simp [run_process, do_async_fn_msgs, hE, hpe] at hp
      · refine ⟨?_, ?_⟩
        · simp [run_process, do_async_fn_msgs, hE, hpe, countFinished,
            Msg.isFinished]
        · intro p hp
          simp [run_process, do_async_fn_msgs, hE, hpe] at hp
          subst hp
          refine ⟨[Msg.initialized pid, Msg.state .WAIT_EXEC_DATA,
            Msg.state .BOOTING, Msg.state .STARTED, Msg.state .EXECUTING,
            Msg.state .STOPPING], ?_, by simp⟩
          simp [run_process, do_async_fn_msgs, hE, hpe]
    · cases hpv : pickleValOk v
      · refine ⟨?_, ?_⟩
        · simp [run_process, do_async_fn_msgs, hE, hpv, countFinished,
            Msg.isFinished]
        · intro p hp
          simp [run_process, do_async_fn_msgs, hE, hpv] at hp
      · refine ⟨?_, ?_⟩
        · simp [run_process, do_async_fn_msgs, hE, hpv, countFinished,
            Msg.isFinished]
        · intro p hp
          simp [run_process, do_async_fn_msgs, hE, hpv] at hp
          subst hp
          refine ⟨[Msg.initialized pid, Msg.state .WAIT_EXEC_DATA,
            Msg.state .BOOTING, Msg.state .STARTED, Msg.state .EXECUTING,
            Msg.state .STOPPING], ?_, by simp⟩
          simp [run_process, do_async_fn_msgs, hE, hpv]

/-- Witness for C8: applying the invariant to a concrete successful run
locates its unique FINISHED message after a STOPPING. -/
theorem C8_stopping_before_finished_witness :
    ∃ pre,
      (run_process (α := Nat) 7 (.ok ()) (.ok 42) [] [(true, false)] false
        15 true (fun _ => true) (fun _ => true)).msgs =
        pre ++ [Msg.finished (Outcome.success 42)] ∧
      Msg.state State.STOPPING ∈ pre :=
  (C8_stopping_before_finished 7 (.ok ()) (.ok 42) [] [(true, false)]
      false 15 true (fun _ => true) (fun _ => true)).2
    (Outcome.success 42) (by decide)

end AioRunInProcess
